import Mathlib

/-!
Verification development for the EEG analysis server (`app.py`).

The embedding is shallow: Python string operations are modelled character
by character over `List Char`, numeric averages over `ℚ` (Python float
division on small integer inputs), Python `int(...)` truncation as an
explicit function, and the Groq HTTP call as an explicit outcome datatype
(`GroqOutcome`) whose cases cover a transport-level exception, a non-2xx
response, a response whose JSON extraction fails, and a successful
extraction of the completion text.
-/

namespace EEG

/-- Whitespace characters recognised by Python `str.strip`. -/
def pyIsSpace (c : Char) : Bool :=
  c == ' ' || c == '\t' || c == '\n' || c == '\r' || c == '\x0b' || c == '\x0c'

/-- Result of stripping whitespace from both ends of a character list. -/
def pyStripList (cs : List Char) : List Char :=
  ((cs.dropWhile pyIsSpace).reverse.dropWhile pyIsSpace).reverse

/-- Python `s.strip()`. -/
def pyStrip (s : String) : String :=
  String.mk (pyStripList s.data)

/-- Check whether `p` occurs at the head of `cs` (helper for `startswith`). -/
def headMatches : List Char → List Char → Bool
  | [], _ => true
  | _ :: _, [] => false
  | p :: ps, c :: cs => p == c && headMatches ps cs

/-- Python `s.startswith(p)`. -/
def pyStartsWith (s p : String) : Bool :=
  headMatches p.data s.data

/-- Occurrence check of `needle` anywhere in `hay` (helper for Python `in`). -/
def charsContain (needle : List Char) : List Char → Bool
  | [] => headMatches needle []
  | c :: rest => headMatches needle (c :: rest) || charsContain needle rest

/-- Python `needle in hay` on strings (raw substring containment). -/
def pyContains (hay needle : String) : Bool :=
  charsContain needle.data hay.data

/-- Python `s.lower()` (ASCII lowering suffices for the texts involved). -/
def pyLower (s : String) : String :=
  String.mk (s.data.map Char.toLower)

/-- Deletion pass behind `removeAll`, structurally recursive on a fuel
argument so that it reduces inside the kernel; each step consumes at least
one character of the haystack, so fuel equal to the haystack length is
enough, and the fuel-exhausted case is unreachable. -/
def removeAllFuel (pat : List Char) : Nat → List Char → List Char
  | _, [] => []
  | 0, hay => hay
  | fuel + 1, c :: rest =>
    if pat ≠ [] ∧ headMatches pat (c :: rest) = true then
      removeAllFuel pat fuel (rest.drop (pat.length - 1))
    else
      c :: removeAllFuel pat fuel rest

/-- Deletion of every occurrence of the non-empty pattern `pat`, scanning
left to right (Python `s.replace(pat, "")`). -/
def removeAll (pat hay : List Char) : List Char :=
  removeAllFuel pat hay.length hay

/-- Python `s.replace(pat, "")`. -/
def pyReplace (s pat : String) : String :=
  String.mk (removeAll pat.data s.data)

/-- Split at every newline character, keeping empty pieces
(Python `s.split('\n')`). -/
def splitNLChars : List Char → List (List Char)
  | [] => [[]]
  | c :: rest =>
    if c == '\n' then [] :: splitNLChars rest
    else
      match splitNLChars rest with
      | [] => [[c]]
      | l :: ls => (c :: l) :: ls

/-- Python `s.split('\n')`. -/
def pySplitNL (s : String) : List String :=
  (splitNLChars s.data).map String.mk

/-- Python `s[:n]`. -/
def pyTake (s : String) (n : Nat) : String :=
  String.mk (s.data.take n)

/-- Average `sum(xs) / len(xs)` as an exact rational; the Python code only
evaluates it on non-empty lists (the empty case would raise). -/
def mean (xs : List Int) : ℚ :=
  (xs.sum : ℚ) / (xs.length : ℚ)

/-- Average of the blink series, `sum(xs)/len(xs) if xs else 0`. -/
def meanOr0 (xs : List Int) : ℚ :=
  if xs.isEmpty then 0 else mean xs

/-- Python `int(q)`: truncation toward zero. -/
def pyInt (q : ℚ) : ℤ :=
  if 0 ≤ q then ⌊q⌋ else -⌊-q⌋

/-- Decimal rendering of `int(q)` as used in the f-string templates. -/
def pyIntStr (q : ℚ) : String :=
  toString (pyInt q)

/-- Embedding of `calculate_stress_level(avg_attention, avg_meditation)`. -/
def calculate_stress_level (avg_attention avg_meditation : ℚ) : ℤ :=
  if avg_attention > 70 ∧ avg_meditation < 40 then 75
  else if avg_attention < 40 ∧ avg_meditation > 70 then 25
  else if avg_attention > 60 ∧ avg_meditation > 60 then 30
  else 50

/-- Embedding of `calculate_variance(data)` up to the final square root: the
source returns `variance ** 0.5` (population standard deviation); the one
caller (`analyze_local`) binds the result and never uses it, so the square
root never influences any modelled behaviour. Inputs of length below two
give 0, as in the source. -/
def calculate_variance (data : List Int) : ℚ :=
  if data.length < 2 then 0
  else (data.map (fun x => ((x : ℚ) - mean data) ^ 2)).sum / (data.length : ℚ)

/-- Result record returned by every analysis path (`mentalState`,
`analysis`, `recommendation`, `stressLevel`). -/
structure AnalysisResult where
  mentalState : String
  analysis : String
  recommendation : String
  stressLevel : Int
  deriving Repr, DecidableEq

/-- Embedding of `analyze_local_simple(avg_attention, avg_meditation,
avg_blink)`; the `avg_blink` parameter is accepted and ignored exactly as in
the source. -/
def analyze_local_simple (avg_attention avg_meditation avg_blink : ℚ) : AnalysisResult :=
  let r :=
    if avg_attention > 70 ∧ avg_meditation < 40 then
      ("Stressed", "High attention, low meditation indicates stress.",
       "Take a break and practice deep breathing.")
    else if avg_attention < 40 ∧ avg_meditation > 70 then
      ("Relaxed", "High meditation shows a relaxed state.",
       "Maintain this calm or gently increase focus.")
    else if avg_attention > 60 ∧ avg_meditation > 60 then
      ("Focused", "Balanced high levels - optimal flow state.",
       "Keep going! Take breaks every 25-30 minutes.")
    else if avg_attention < 30 ∧ avg_meditation < 30 then
      ("Tired", "Low levels indicate fatigue.",
       "Rest or light exercise needed.")
    else
      ("Neutral", "Balanced neutral state.",
       "Shift to focus or relaxation as needed.")
  { mentalState := r.1, analysis := r.2.1, recommendation := r.2.2,
    stressLevel := calculate_stress_level avg_attention avg_meditation }

/-- Embedding of `analyze_local(attention_history, meditation_history,
blink_history)`. The source computes `avg_blink` and `att_variance` and
then never reads either; both bindings are kept to mirror that. -/
def analyze_local (attention_history meditation_history blink_history : List Int) :
    AnalysisResult :=
  let avg_attention := mean attention_history
  let avg_meditation := mean meditation_history
  let avg_blink := meanOr0 blink_history
  let att_variance := calculate_variance attention_history
  let a := pyIntStr avg_attention
  let m := pyIntStr avg_meditation
  let r :=
    if avg_attention > 70 ∧ avg_meditation < 40 then
      ("Stressed",
       "Your attention is very high (" ++ a ++ "%) while meditation is low (" ++ m ++
         "%). This indicates mental stress or intense focus without relaxation. Your mind is working hard but needs rest.",
       "Take a 5-10 minute break. Try deep breathing: inhale for 4 seconds, hold for 4, exhale for 4. This reduces stress while maintaining alertness.")
    else if avg_attention < 40 ∧ avg_meditation > 70 then
      ("Relaxed",
       "High meditation (" ++ m ++ "%) with lower attention (" ++ a ++
         "%). You\x27re in a deeply relaxed, calm state - perfect for stress relief and mindfulness.",
       "Great relaxation! To shift toward focus, gently increase activity. To maintain calm, continue with mindful breathing or meditation.")
    else if avg_attention > 60 ∧ avg_meditation > 60 then
      ("Focused",
       "Excellent balance! Both attention (" ++ a ++ "%) and meditation (" ++ m ++
         "%) are high. This is the optimal \x27flow state\x27 - focused yet relaxed.",
       "You\x27re in peak mental performance! Maintain this by staying on task. Take 5-minute breaks every 25-30 minutes to sustain flow.")
    else if avg_attention < 30 ∧ avg_meditation < 30 then
      ("Tired",
       "Both attention (" ++ a ++ "%) and meditation (" ++ m ++
         "%) are low, indicating mental fatigue. Your brain needs rest or stimulation.",
       "Take a 15-20 minute power nap, get fresh air, or do light exercise. Stay hydrated and eat a healthy snack to boost energy.")
    else
      ("Neutral",
       "Balanced neutral state. Attention: " ++ a ++ "%, Meditation: " ++ m ++
         "%. Neither highly focused nor deeply relaxed - a flexible middle ground.",
       "You can shift toward focus (tackle a challenging task) or relaxation (take a mindful break) as needed. Stay flexible!")
  { mentalState := r.1, analysis := r.2.1, recommendation := r.2.2,
    stressLevel := calculate_stress_level avg_attention avg_meditation }

/-- Outcome of the single `requests.post` call made by `call_groq_api`:
either the request itself raised (timeout, connection error), or an HTTP
response arrived with some status code and, when the body parsed as JSON
and held the path `choices[0].message.content`, that extracted completion
text (`content = none` models a malformed body or a missing key, both of
which raise in the source). -/
inductive GroqOutcome where
  | transportError
  | httpResponse (status : Nat) (content : Option String)
  deriving Repr, DecidableEq

/-- Embedding of `call_groq_api(prompt)`: a non-200 status raises, and a
body whose JSON extraction fails raises; both are modelled as `Except.error`
since every caller catches all exceptions alike. On success the completion
text is returned. -/
def call_groq_api : GroqOutcome → Except String String
  | .transportError => .error "Groq request failed"
  | .httpResponse status content =>
    if status ≠ 200 then
      .error ("Groq API error (" ++ toString status ++ ")")
    else
      match content with
      | none => .error "Malformed Groq response"
      | some text => .ok text

/-- Loop body of the response-parsing `for` loop in `analyze_with_groq`:
the accumulator carries (mental_state, analysis, recommendation), updated
when the stripped line starts with the corresponding label. -/
def parse_step (acc : String × String × String) (line : String) : String × String × String :=
  if pyStartsWith (pyStrip line) "Mental State:" then
    (pyStrip (pyReplace (pyStrip line) "Mental State:"), acc.2.1, acc.2.2)
  else if pyStartsWith (pyStrip line) "Analysis:" then
    (acc.1, pyStrip (pyReplace (pyStrip line) "Analysis:"), acc.2.2)
  else if pyStartsWith (pyStrip line) "Recommendation:" then
    (acc.1, acc.2.1, pyStrip (pyReplace (pyStrip line) "Recommendation:"))
  else acc

/-- Field triple produced by running the parsing loop of
`analyze_with_groq` over `response.strip().split('\n')`, starting from
`("Neutral", "", "")`. -/
def parse_groq_fields (response : String) : String × String × String :=
  (pySplitNL (pyStrip response)).foldl parse_step ("Neutral", "", "")

/-- Embedding of `analyze_with_groq(attention_history, meditation_history,
blink_history)` with the provider call outcome made explicit: any exception
from `call_groq_api` is caught and answered by
`analyze_local_simple` on the averages of the same input series; on success
the response text is parsed, `analysis` defaulting to the first 250
characters of the raw response and `recommendation` to a fixed sentence. -/
def analyze_with_groq (attention_history meditation_history blink_history : List Int)
    (out : GroqOutcome) : AnalysisResult :=
  let avg_attention := mean attention_history
  let avg_meditation := mean meditation_history
  match call_groq_api out with
  | .error _ =>
    analyze_local_simple avg_attention avg_meditation (meanOr0 blink_history)
  | .ok response =>
    let p := parse_groq_fields response
    let analysis := if p.2.1 = "" then pyTake response 250 else p.2.1
    let recommendation :=
      if p.2.2 = "" then "Continue monitoring your brainwaves regularly." else p.2.2
    { mentalState := p.1, analysis := analysis, recommendation := recommendation,
      stressLevel := calculate_stress_level avg_attention avg_meditation }

/-- Request body of `/api/analyze`; a missing list field defaults to `[]`
via `data.get(..., [])`, so absence and emptiness coincide. -/
structure AnalyzeRequest where
  attentionHistory : List Int
  meditationHistory : List Int
  blinkHistory : List Int
  deriving Repr, DecidableEq

/-- HTTP-level result of an endpoint: 200 with a JSON value, or 400 with an
error message. -/
inductive ApiResponse (α : Type) where
  | ok (value : α)
  | badRequest (error : String)
  deriving Repr, DecidableEq

/-- Embedding of the `/api/analyze` handler `analyze_eeg`: reject a missing
body, reject empty attention or meditation series, then dispatch to the AI
path (when `USE_AI` is set and a real key is configured) or to
`analyze_local`. -/
def analyze_eeg (data : Option AnalyzeRequest) (ai_configured : Bool) (out : GroqOutcome) :
    ApiResponse AnalysisResult :=
  match data with
  | none => .badRequest "No data provided"
  | some d =>
    if d.attentionHistory.isEmpty || d.meditationHistory.isEmpty then
      .badRequest "Missing EEG data"
    else if ai_configured then
      .ok (analyze_with_groq d.attentionHistory d.meditationHistory d.blinkHistory out)
    else
      .ok (analyze_local d.attentionHistory d.meditationHistory d.blinkHistory)

/-- Greeting reply of the offline FAQ responder (first keyword family). -/
def greetingAnswer : String :=
  "Hello! I\x27m your EEG assistant. I can help you understand brainwaves, stress levels, focus, and how to use this app. What would you like to know?"

/-- Embedding of `answer_local(question)`: lowercase the question, then try
each keyword family in order by raw substring containment; the first match
wins, with a generic closer as the default. -/
def answer_local (question : String) : String :=
  let q := pyLower question
  if pyContains q "hi" || pyContains q "hello" || pyContains q "hey" then
    greetingAnswer
  else if pyContains q "attention" || pyContains q "focus" then
    "Attention measures your mental focus (0-100%). Higher values = better concentration. It reflects beta wave activity. Track it to improve focus during work or study!"
  else if pyContains q "meditation" || pyContains q "calm" || pyContains q "relax" then
    "Meditation measures mental calmness (0-100%). Higher = more relaxed. Reflects alpha waves. Great for stress monitoring and mindfulness practice!"
  else if pyContains q "stress" || pyContains q "stressed" then
    "Stress is calculated from attention/meditation balance. High attention + low meditation = high stress. Reduce it with breaks, breathing exercises, and regular monitoring!"
  else if pyContains q "blink" || pyContains q "eye" then
    "Blink strength (0-100%) measures eye blink intensity. Use strong blinks for control commands - a natural way to interact with devices!"
  else if pyContains q "how" || pyContains q "use" || pyContains q "work" then
    "Wear the EEG headset and this app reads your brainwaves in real-time. It analyzes mental state, tracks focus, monitors stress, and lets you control devices. Explore the features!"
  else if pyContains q "improve" || pyContains q "better" then
    "To improve: Practice 10-15 mins daily, stay relaxed, recalibrate weekly, work in quiet spaces, stay hydrated. Your brain gets stronger with practice!"
  else
    "That\x27s interesting! I can tell you about: attention, meditation, stress, blinks, app usage, or mental training. What would you like to know?"

/-- Embedding of `answer_with_groq(question)`: return the completion text,
or fall back to `answer_local` when the provider call raises. -/
def answer_with_groq (question : String) (out : GroqOutcome) : String :=
  match call_groq_api out with
  | .ok text => text
  | .error _ => answer_local question

/-- Embedding of the `/api/question` handler `ask_question`: reject a
missing body, reject an empty question string (`if not question`, with the
field defaulting to `""`), then answer via Groq or the local knowledge
base. -/
def ask_question (data : Option String) (ai_configured : Bool) (out : GroqOutcome) :
    ApiResponse String :=
  match data with
  | none => .badRequest "No data provided"
  | some question =>
    if question = "" then .badRequest "No question provided"
    else if ai_configured then .ok (answer_with_groq question out)
    else .ok (answer_local question)

/-- Canonical mental-state labels named by the spec (the closed
enumeration, before any display suffix). -/
def canonicalLabels : List String :=
  ["Stressed", "Relaxed", "Happy", "Sad", "Focused", "Tired", "Neutral"]

/-- Extraction of the mental-state field alone from the response lines:
the stripped remainder of the last line starting with `Mental State:`,
defaulting to `Neutral`. -/
def extract_mental_state (lines : List String) : String :=
  lines.foldl
    (fun acc line =>
      if pyStartsWith (pyStrip line) "Mental State:" then
        pyStrip (pyReplace (pyStrip line) "Mental State:")
      else acc)
    "Neutral"

/-- Python `min(xs)` on a non-empty list (0 on the empty list, where the
source would raise). -/
def listMin : List Int → Int
  | [] => 0
  | x :: rest => rest.foldl min x

/-- Python `max(xs)` on a non-empty list (0 on the empty list, where the
source would raise). -/
def listMax : List Int → Int
  | [] => 0
  | x :: rest => rest.foldl max x

/-- Stress scores are always among 75, 25, 30, 50, hence within [0, 100]. -/
theorem calculate_stress_level_bounds (a m : ℚ) :
    0 ≤ calculate_stress_level a m ∧ calculate_stress_level a m ≤ 100 := by
  unfold calculate_stress_level
  split_ifs <;> omega

/-- Projection of `analyze_local` onto its stress score. -/
theorem analyze_local_stressLevel (att med blink : List Int) :
    (analyze_local att med blink).stressLevel
      = calculate_stress_level (mean att) (mean med) := rfl

/-- Projection of `analyze_local_simple` onto its stress score. -/
theorem analyze_local_simple_stressLevel (a m b : ℚ) :
    (analyze_local_simple a m b).stressLevel = calculate_stress_level a m := rfl

/-- Both branches of `analyze_with_groq` score stress with
`calculate_stress_level` on the same averages. -/
theorem analyze_with_groq_stressLevel (att med blink : List Int) (out : GroqOutcome) :
    (analyze_with_groq att med blink out).stressLevel
      = calculate_stress_level (mean att) (mean med) := by
  unfold analyze_with_groq
  rcases h : call_groq_api out with e | r <;> simp [h, analyze_local_simple_stressLevel]

/-- Offline labels of the simplified classifier stay canonical. -/
theorem analyze_local_simple_label_mem (a m b : ℚ) :
    (analyze_local_simple a m b).mentalState ∈ canonicalLabels := by
  simp only [analyze_local_simple]
  split_ifs <;> decide

/-- Offline labels of the richer classifier stay canonical. -/
theorem analyze_local_label_mem (att med blink : List Int) :
    (analyze_local att med blink).mentalState ∈ canonicalLabels := by
  simp only [analyze_local]
  split_ifs
  · show "Stressed" ∈ canonicalLabels
    decide
  · show "Relaxed" ∈ canonicalLabels
    decide
  · show "Focused" ∈ canonicalLabels
    decide
  · show "Tired" ∈ canonicalLabels
    decide
  · show "Neutral" ∈ canonicalLabels
    decide

/-- Projection of the parsing loop onto its mental-state component. -/
theorem foldl_parse_step_fst (lines : List String) :
    ∀ acc : String × String × String,
      (lines.foldl parse_step acc).1
        = lines.foldl
            (fun s line =>
              if pyStartsWith (pyStrip line) "Mental State:" then
                pyStrip (pyReplace (pyStrip line) "Mental State:")
              else s)
            acc.1 := by
  induction lines with
  | nil => intro acc; rfl
  | cons l ls ih =>
    intro acc
    simp only [List.foldl_cons]
    rw [ih]
    congr 1
    simp only [parse_step]
    split_ifs <;> rfl

/-- C1: for every analyze request with non-empty attention and meditation
series, if the AI path is taken and the provider call fails in any way
(transport error, non-2xx status, malformed or key-missing response JSON),
the endpoint still returns 200 with the AnalysisResult of the rule-based
classifier on the averages of the same input series, and no error is
surfaced. -/
theorem groq_failure_falls_back (att med blink : List Int) (out : GroqOutcome)
    (hatt : att ≠ []) (hmed : med ≠ [])
    (hfail : out = .transportError
      ∨ (∃ s c, out = .httpResponse s c ∧ s ≠ 200)
      ∨ ∃ s, out = .httpResponse s none) :
    analyze_eeg (some ⟨att, med, blink⟩) true out
      = .ok (analyze_local_simple (mean att) (mean med) (meanOr0 blink)) := by
  have herr : ∃ e, call_groq_api out = .error e := by
    rcases hfail with h | ⟨s, c, h, hs⟩ | ⟨s, h⟩
    · subst h
      exact ⟨"Groq request failed", rfl⟩
    · subst h
      refine ⟨"Groq API error (" ++ toString s ++ ")", ?_⟩
      simp [call_groq_api, hs]
    · subst h
      by_cases hs : s = 200
      · subst hs
        exact ⟨"Malformed Groq response", rfl⟩
      · refine ⟨"Groq API error (" ++ toString s ++ ")", ?_⟩
        simp [call_groq_api, hs]
  obtain ⟨e, he⟩ := herr
  have hattE : att.isEmpty = false := by
    cases att with
    | nil => exact absurd rfl hatt
    | cons a as => rfl
  have hmedE : med.isEmpty = false := by
    cases med with
    | nil => exact absurd rfl hmed
    | cons a as => rfl
  simp [analyze_eeg, hattE, hmedE, analyze_with_groq, he]

/-- Witness for C1 at a concrete failing call. -/
theorem groq_failure_falls_back_witness :
    analyze_eeg (some ⟨[80], [20], []⟩) true .transportError
      = .ok (analyze_local_simple (mean [80]) (mean [20]) (meanOr0 [])) ∧
    (analyze_local_simple (mean [80]) (mean [20]) (meanOr0 [])).mentalState = "Stressed" := by
  constructor
  · exact groq_failure_falls_back [80] [20] [] .transportError (by decide) (by decide)
      (Or.inl rfl)
  · have h1 : mean [80] = 80 := by norm_num [mean]
    have h2 : mean [20] = 20 := by norm_num [mean]
    rw [h1, h2]
    norm_num [analyze_local_simple]

/-- C2: the stress score is a pure function of the two averages that
returns 75, 25, 30 and 50 in exactly the order of checks of the source. -/
theorem calculate_stress_level_cases (a m : ℚ) :
    (a > 70 ∧ m < 40 → calculate_stress_level a m = 75) ∧
    (¬(a > 70 ∧ m < 40) → a < 40 ∧ m > 70 → calculate_stress_level a m = 25) ∧
    (¬(a > 70 ∧ m < 40) → ¬(a < 40 ∧ m > 70) → a > 60 ∧ m > 60 →
      calculate_stress_level a m = 30) ∧
    (¬(a > 70 ∧ m < 40) → ¬(a < 40 ∧ m > 70) → ¬(a > 60 ∧ m > 60) →
      calculate_stress_level a m = 50) := by
  unfold calculate_stress_level
  refine ⟨?_, ?_, ?_, ?_⟩ <;> intros <;> split_ifs <;> first | rfl | tauto

/-- Witness for C2 at the spec's example points 80/20 and 50/50. -/
theorem calculate_stress_level_cases_witness :
    calculate_stress_level 80 20 = 75 ∧ calculate_stress_level 50 50 = 50 := by
  constructor
  · exact (calculate_stress_level_cases 80 20).1 (by norm_num)
  · exact (calculate_stress_level_cases 50 50).2.2.2 (by norm_num) (by norm_num) (by norm_num)

/-- Counterexample for C3: a successful provider call whose Mental State
line holds a non-canonical word is returned verbatim, not as a canonical
label and not as a canonical label with a display suffix. -/
theorem ai_mentalState_not_canonical_cex :
    (analyze_with_groq [50] [50] [] (.httpResponse 200 (some "Mental State: Overjoyed"))).mentalState
      = "Overjoyed" ∧
    "Overjoyed" ∉ canonicalLabels ∧
    canonicalLabels.all (fun l => !(pyStartsWith "Overjoyed" l)) = true := by
  refine ⟨by decide, by decide, by decide⟩

/-- C3 as amended: every valid request gets a 200 AnalysisResult whose
stress score lies in [0,100]; the mental state is one of the canonical
labels on the offline path and on the AI path whenever the provider call
fails, while a successful AI call may return any extracted string. -/
theorem analyze_eeg_result_shape (att med blink : List Int) (ai : Bool) (out : GroqOutcome)
    (hatt : att ≠ []) (hmed : med ≠ []) :
    ∃ r, analyze_eeg (some ⟨att, med, blink⟩) ai out = .ok r ∧
      0 ≤ r.stressLevel ∧ r.stressLevel ≤ 100 ∧
      ((ai = false ∨ ∃ e, call_groq_api out = .error e) → r.mentalState ∈ canonicalLabels) := by
  have hattE : att.isEmpty = false := by
    cases att with
    | nil => exact absurd rfl hatt
    | cons a as => rfl
  have hmedE : med.isEmpty = false := by
    cases med with
    | nil => exact absurd rfl hmed
    | cons a as => rfl
  cases ai with
  | false =>
    refine ⟨analyze_local att med blink, by simp [analyze_eeg, hattE, hmedE], ?_, ?_, ?_⟩
    · rw [analyze_local_stressLevel]
      exact (calculate_stress_level_bounds _ _).1
    · rw [analyze_local_stressLevel]
      exact (calculate_stress_level_bounds _ _).2
    · exact fun _ => analyze_local_label_mem att med blink
  | true =>
    refine ⟨analyze_with_groq att med blink out, by simp [analyze_eeg, hattE, hmedE], ?_, ?_, ?_⟩
    · rw [analyze_with_groq_stressLevel]
      exact (calculate_stress_level_bounds _ _).1
    · rw [analyze_with_groq_stressLevel]
      exact (calculate_stress_level_bounds _ _).2
    · rintro (h | ⟨e, he⟩)
      · simp at h
      · unfold analyze_with_groq
        simp only [he]
        exact analyze_local_simple_label_mem _ _ _

/-- Witness for C3 (amended) on the offline path. -/
theorem analyze_eeg_result_shape_witness :
    ∃ r, analyze_eeg (some ⟨[50], [50], []⟩) false .transportError = .ok r ∧
      0 ≤ r.stressLevel ∧ r.stressLevel ≤ 100 ∧
      ((false = false ∨ ∃ e, call_groq_api .transportError = .error e) →
        r.mentalState ∈ canonicalLabels) :=
  analyze_eeg_result_shape [50] [50] [] false .transportError (by decide) (by decide)

/-- Counterexample for C4: even with keyword words such as "stressed" and
"relaxed" present in the full response text, the parser keeps the
non-canonical extracted field verbatim, so no whole-text keyword scan
runs. -/
theorem parser_no_keyword_scan_cex :
    (analyze_with_groq [50] [50] []
        (.httpResponse 200 (some "Mental State: Ecstatic\nFeeling stressed and relaxed"))).mentalState
      = "Ecstatic" ∧ "Ecstatic" ∉ canonicalLabels := by
  refine ⟨by decide, by decide⟩

/-- C4 as amended: the parser's mentalState output is exactly the stripped
remainder of the last `Mental State:` line of the response, defaulting to
Neutral when no such line exists; no secondary keyword scan adjusts it. -/
theorem parser_mentalState_verbatim (att med blink : List Int) (response : String) :
    (analyze_with_groq att med blink (.httpResponse 200 (some response))).mentalState
      = extract_mental_state (pySplitNL (pyStrip response)) := by
  have hok : call_groq_api (.httpResponse 200 (some response)) = .ok response := rfl
  simp only [analyze_with_groq, hok]
  unfold parse_groq_fields extract_mental_state
  exact foldl_parse_step_fst _ _

/-- Counterexample for C5: averages 50/50 with an attention range of 80
match no branch, and the result is Neutral with stress 50, not Stressed
with stress 85. -/
theorem variance_branch_absent_cex :
    mean [10, 90] = 50 ∧ mean [50, 50] = 50 ∧
    listMax [10, 90] - listMin [10, 90] = 80 ∧
    (analyze_local [10, 90] [50, 50] []).mentalState = "Neutral" ∧
    (analyze_local [10, 90] [50, 50] []).stressLevel = 50 := by
  have h1 : mean [10, 90] = 50 := by norm_num [mean]
  have h2 : mean [50, 50] = 50 := by norm_num [mean]
  refine ⟨h1, h2, by decide, ?_, ?_⟩
  · simp only [analyze_local, h1, h2]
    norm_num
  · rw [analyze_local_stressLevel, h1, h2]
    norm_num [calculate_stress_level]

/-- C5 as amended: the richer classifier computes the attention variance
but never uses it; when no branch matches (branch 4 testing the averages
against 30), the result is Neutral with stress 50 even when the attention
or meditation range exceeds 40 points. -/
theorem analyze_local_high_range_neutral (att med blink : List Int)
    (h1 : ¬(mean att > 70 ∧ mean med < 40))
    (h2 : ¬(mean att < 40 ∧ mean med > 70))
    (h3 : ¬(mean att > 60 ∧ mean med > 60))
    (h4 : ¬(mean att < 30 ∧ mean med < 30))
    (hrange : 40 < listMax att - listMin att ∨ 40 < listMax med - listMin med) :
    (analyze_local att med blink).mentalState = "Neutral" ∧
    (analyze_local att med blink).stressLevel = 50 := by
  constructor
  · simp only [analyze_local]
    split_ifs <;> first | rfl | tauto
  · rw [analyze_local_stressLevel]
    unfold calculate_stress_level
    split_ifs <;> first | rfl | tauto

/-- Witness for C5 (amended) at a high-variability input. -/
theorem analyze_local_high_range_neutral_witness :
    (analyze_local [10, 90] [48, 52] []).mentalState = "Neutral" ∧
    (analyze_local [10, 90] [48, 52] []).stressLevel = 50 := by
  have h1 : mean [10, 90] = 50 := by norm_num [mean]
  have h2 : mean [48, 52] = 50 := by norm_num [mean]
  exact analyze_local_high_range_neutral [10, 90] [48, 52] []
    (by rw [h1, h2]; norm_num) (by rw [h1, h2]; norm_num)
    (by rw [h1, h2]; norm_num) (by rw [h1, h2]; norm_num)
    (Or.inl (by decide))

/-- Counterexample for C6: for a response with no recognizable labels the
last non-empty line is "hello world", yet the defaulted recommendation is
the fixed generic sentence. -/
theorem recommendation_not_last_line_cex :
    (analyze_with_groq [50] [50] [] (.httpResponse 200 (some "hello world"))).recommendation
      = "Continue monitoring your brainwaves regularly." ∧
    (analyze_with_groq [50] [50] [] (.httpResponse 200 (some "hello world"))).recommendation
      ≠ "hello world" := by
  refine ⟨by decide, by decide⟩

/-- C6 as amended: whenever the line scan yields no recommendation field,
the recommendation defaults unconditionally to the fixed sentence
"Continue monitoring your brainwaves regularly.", which is non-empty,
regardless of the response lines. -/
theorem recommendation_generic_default (att med blink : List Int) (response : String)
    (h : (parse_groq_fields response).2.2 = "") :
    (analyze_with_groq att med blink (.httpResponse 200 (some response))).recommendation
      = "Continue monitoring your brainwaves regularly." ∧
    (analyze_with_groq att med blink (.httpResponse 200 (some response))).recommendation
      ≠ "" := by
  have hr : (analyze_with_groq att med blink (.httpResponse 200 (some response))).recommendation
      = if (parse_groq_fields response).2.2 = ""
        then "Continue monitoring your brainwaves regularly."
        else (parse_groq_fields response).2.2 := rfl
  rw [hr, if_pos h]
  exact ⟨rfl, by decide⟩

/-- Witness for C6 (amended) on a label-free response. -/
theorem recommendation_generic_default_witness :
    (analyze_with_groq [50] [50] [] (.httpResponse 200 (some "no labels here"))).recommendation
      = "Continue monitoring your brainwaves regularly." ∧
    (analyze_with_groq [50] [50] [] (.httpResponse 200 (some "no labels here"))).recommendation
      ≠ "" :=
  recommendation_generic_default [50] [50] [] "no labels here" (by decide)

/-- C7: a request with an empty attention or meditation series is rejected
with 400 "Missing EEG data" before any analysis, while non-empty attention
and meditation series always yield a 200 result, whatever the blink series
(in particular an empty one). -/
theorem analyze_eeg_validation (d : AnalyzeRequest) (ai : Bool) (out : GroqOutcome) :
    (d.attentionHistory = [] ∨ d.meditationHistory = [] →
      analyze_eeg (some d) ai out = .badRequest "Missing EEG data") ∧
    (d.attentionHistory ≠ [] → d.meditationHistory ≠ [] →
      ∃ r, analyze_eeg (some d) ai out = .ok r) := by
  obtain ⟨att, med, blink⟩ := d
  constructor
  · rintro (h | h) <;> subst h <;> simp [analyze_eeg]
  · intro h1 h2
    have hattE : att.isEmpty = false := by
      cases att with
      | nil => exact absurd rfl h1
      | cons a as => rfl
    have hmedE : med.isEmpty = false := by
      cases med with
      | nil => exact absurd rfl h2
      | cons a as => rfl
    cases ai with
    | false => exact ⟨analyze_local att med blink, by simp [analyze_eeg, hattE, hmedE]⟩
    | true =>
      exact ⟨analyze_with_groq att med blink out, by simp [analyze_eeg, hattE, hmedE]⟩

/-- Witness for C7: empty attention is rejected, and an empty blink series
alone is not. -/
theorem analyze_eeg_validation_witness :
    analyze_eeg (some ⟨[], [5], []⟩) false .transportError
      = .badRequest "Missing EEG data" ∧
    ∃ r, analyze_eeg (some ⟨[4], [5], []⟩) false .transportError = .ok r := by
  constructor
  · exact (analyze_eeg_validation ⟨[], [5], []⟩ false .transportError).1 (Or.inl rfl)
  · exact (analyze_eeg_validation ⟨[4], [5], []⟩ false .transportError).2
      (by decide) (by decide)

/-- Counterexample for C8: a question of three spaces is not rejected; it
is answered by the offline default reply. -/
theorem whitespace_question_accepted_cex :
    ask_question (some "   ") false .transportError
      = .ok "That\x27s interesting! I can tell you about: attention, meditation, stress, blinks, app usage, or mental training. What would you like to know?" := by
  decide

/-- C8 as amended: the question endpoint rejects with 400 exactly when the
question string is empty, with no trimming applied, so whitespace-only
questions are accepted and answered. -/
theorem ask_question_rejects_iff_empty (q : String) (ai : Bool) (out : GroqOutcome) :
    ask_question (some q) ai out = .badRequest "No question provided" ↔ q = "" := by
  unfold ask_question
  split_ifs with hq <;> simp [hq]

/-- Witness for C8 (amended): the criterion applied to a whitespace-only
question shows it is not rejected. -/
theorem ask_question_rejects_iff_empty_witness :
    ask_question (some "   ") true .transportError ≠ .badRequest "No question provided" := by
  intro h
  exact absurd ((ask_question_rejects_iff_empty "   " true .transportError).mp h) (by decide)

/-- Counterexample for C9: averages of 35 fall below 40 and match none of
branches 1-3, yet the result is Neutral because the code tests the Tired
branch against 30. -/
theorem tired_threshold_cex :
    mean [35] = 35 ∧
    ¬(mean [35] > 70 ∧ mean [35] < 40) ∧
    ¬(mean [35] < 40 ∧ mean [35] > 70) ∧
    ¬(mean [35] > 60 ∧ mean [35] > 60) ∧
    (mean [35] < 40 ∧ mean [35] < 40) ∧
    (analyze_local [35] [35] []).mentalState = "Neutral" ∧
    "Neutral" ≠ "Tired" := by
  have h : mean [35] = 35 := by norm_num [mean]
  refine ⟨h, ?_, ?_, ?_, ?_, ?_, by decide⟩
  · rw [h]; norm_num
  · rw [h]; norm_num
  · rw [h]; norm_num
  · rw [h]; norm_num
  · simp only [analyze_local, h]
    norm_num

/-- C9 as amended: when branches 1-3 fail and both averages are below 30,
the richer classifier labels the state Tired. -/
theorem analyze_local_tired_branch (att med blink : List Int)
    (h1 : ¬(mean att > 70 ∧ mean med < 40))
    (h2 : ¬(mean att < 40 ∧ mean med > 70))
    (h3 : ¬(mean att > 60 ∧ mean med > 60))
    (h4 : mean att < 30) (h5 : mean med < 30) :
    (analyze_local att med blink).mentalState = "Tired" := by
  simp only [analyze_local]
  split_ifs <;> first | rfl | tauto

/-- Witness for C9 (amended) at averages of 20. -/
theorem analyze_local_tired_branch_witness :
    (analyze_local [20] [20] []).mentalState = "Tired" := by
  have h : mean [20] = 20 := by norm_num [mean]
  exact analyze_local_tired_branch [20] [20] []
    (by rw [h]; norm_num) (by rw [h]; norm_num) (by rw [h]; norm_num)
    (by rw [h]; norm_num) (by rw [h]; norm_num)

/-- C10: any question whose lowercased text contains "hi" anywhere, also
inside words such as "this" or "machine", gets the greeting answer, ahead
of every later keyword family. -/
theorem answer_local_greeting_precedence (question : String)
    (h : pyContains (pyLower question) "hi" = true) :
    answer_local question = greetingAnswer := by
  simp [answer_local, h]

/-- Witness for C10: a question about app usage contains "hi" inside
"this" and "machine" and receives the greeting answer although the
how/use/work family also matches. -/
theorem answer_local_greeting_precedence_witness :
    pyContains (pyLower "how does this machine work") "hi" = true ∧
    pyContains (pyLower "how does this machine work") "how" = true ∧
    pyContains (pyLower "how does this machine work") "work" = true ∧
    answer_local "how does this machine work" = greetingAnswer := by
  refine ⟨by decide, by decide, by decide, ?_⟩
  exact answer_local_greeting_precedence "how does this machine work" (by decide)

end EEG
